import Mathlib

/-!
Verification of the text-normalization pipeline of morreene/hssearch
(src/app.py).

The program's core is the function `text_preprocessing` (app.py lines
67-113): five optional string-cleaning stages, a call to an external NLP
annotator that produces annotated tokens, a per-token filter/rewrite loop,
and a final join.  The search callback `display_table` (lines 672-676)
normalizes the query with default options and keeps the dataset rows whose
precomputed normalized text contains the space-padded normalized query.

Strings are embedded as `List Char` (`Str`).  The external library calls
(BeautifulSoup's `get_text`, `unidecode`, `contractions.fix`, the spaCy
pipeline `nlp`, and `word2number.w2n.word_to_num`) are fields of an
`Externals` record: they are not code of this repository, so the pipeline
is proved correct for every choice of externals, and concrete claims are
settled against concrete external records modelled from the spec.
Everything else (`remove_whitespace`, the option record with its defaults,
the filter loop, the join, the search containment) is translated directly
from src/app.py.
-/

deriving instance DecidableEq for Except

/-- Characters of a string literal; Python strings are embedded as `List Char`. -/
abbrev Str := List Char

/-- Shorthand turning a Lean string literal into the `List Char` embedding. -/
def chars (s : String) : Str := s.toList

/-- Python `str.isspace` / whitespace class used by `str.split` and `str.strip`. -/
def pyIsSpace (c : Char) : Bool := c.isWhitespace

/-- Python `str.lower` (ASCII case folding suffices for the texts at issue). -/
def pyLower (s : Str) : Str := s.map Char.toLower

/-- Python `str.isnumeric`, restricted to ASCII decimal digits: true iff the
string is nonempty and all of its characters are digits. -/
def pyIsNumeric (s : Str) : Bool := !s.isEmpty && s.all Char.isDigit

/-- Python `str.strip`: drop leading and trailing whitespace. -/
def pyStrip (s : Str) : Str :=
  ((s.dropWhile pyIsSpace).reverse.dropWhile pyIsSpace).reverse

/-- One step of `pySplit`: a whitespace character opens a new (empty) word,
any other character is prepended to the current word. -/
def splitWsAux (c : Char) (acc : List Str) : List Str :=
  if pyIsSpace c then [] :: acc
  else
    match acc with
    | [] => [[c]]
    | w :: ws => (c :: w) :: ws

/-- Python `str.split()` with no argument: split on runs of whitespace,
discarding empty words. -/
def pySplit (s : Str) : List Str :=
  (s.foldr splitWsAux []).filter (fun w => !w.isEmpty)

/-- `remove_whitespace` from app.py lines 49-52:
`text = text.strip(); return " ".join(text.split())`. -/
def remove_whitespace (text : Str) : Str :=
  List.intercalate (chars " ") (pySplit (pyStrip text))

/-- A spaCy token as consumed by the filter loop: surface text (`token.text`),
coarse part-of-speech tag (`token.pos_`), lemma (`token.lemma_`) and the
stopword flag (`token.is_stop`, already reflecting the `deselect_stop_words`
overrides applied at app.py lines 37-39). -/
structure Token where
  text : Str
  pos_ : Str
  lemma_ : Str
  is_stop : Bool
deriving DecidableEq, Repr

/-- The keyword options of `text_preprocessing` (app.py lines 67-71),
every one defaulting to `true`. -/
structure Options where
  accented_chars : Bool := true
  contractions : Bool := true
  convert_num : Bool := true
  extra_whitespace : Bool := true
  lemmatization : Bool := true
  lowercase : Bool := true
  punctuations : Bool := true
  remove_html : Bool := true
  remove_num : Bool := true
  special_chars : Bool := true
  stop_words : Bool := true
deriving DecidableEq, Repr

/-- The all-defaults option record, as used by `display_table`. -/
def defaultOpts : Options := {}

/-- The external library functions the pipeline calls.  `strip_html_tags`
wraps BeautifulSoup (app.py 42-46), `unidecode` the unidecode package
(55-58), `contractions_fix` the contractions package (61-64), `nlp` the
spaCy pipeline loaded at line 34 (with the stopword overrides of lines
37-39 already applied), and `word_to_num` wraps `w2n.word_to_num`
(`none` models the ValueError raised on an unparsable numeral). -/
structure Externals where
  strip_html_tags : Str → Str
  unidecode : Str → Str
  contractions_fix : Str → Str
  nlp : Str → List Token
  word_to_num : Str → Option Int

/-- Errors a pipeline invocation can raise: the ValueError from
`w2n.word_to_num` on an unparsable numeral (named after the offending
token's text), and the TypeError `str.join` raises when the token list
holds a non-string value. -/
inductive PipeErr where
  | conversionError (token : Str)
  | typeError
deriving DecidableEq, Repr

/-- A Python value held in the `edit` variable and in the `clean_text`
list of the filter loop: a string, or the `int` produced by
`w2n.word_to_num`. -/
inductive PyVal where
  | str (s : Str)
  | num (n : Int)
deriving DecidableEq, Repr

/-- Python `edit != ""`: false exactly for the empty string (an `int` is
never equal to `""`). -/
def pyNeEmpty : PyVal → Bool
  | .str s => !s.isEmpty
  | .num _ => true

/-- The straight-line body of the filter loop of app.py lines 89-108 for one
token, up to just before the append test of line 110: the final values of the
`flag` and `edit` variables, or the ValueError escaping from
`w2n.word_to_num` at line 105. -/
def tokenDecision (opts : Options) (w2n : Str → Option Int) (token : Token) :
    Except PipeErr (Bool × PyVal) :=
  let flag := true
  let edit := PyVal.str token.text
  let flag := if opts.stop_words && token.is_stop && !(token.pos_ == chars "NUM") then false else flag
  let flag := if opts.punctuations && (token.pos_ == chars "PUNCT") && flag then false else flag
  let flag := if opts.special_chars && (token.pos_ == chars "SYM") && flag then false else flag
  let flag := if opts.remove_num && ((token.pos_ == chars "NUM") || pyIsNumeric token.text) && flag
              then false else flag
  if opts.convert_num && (token.pos_ == chars "NUM") && flag then
    match w2n token.text with
    | some n => .ok (flag, PyVal.num n)
    | none => .error (.conversionError token.text)
  else if opts.lemmatization && !(token.lemma_ == chars "-PRON-") && flag then
    .ok (flag, PyVal.str token.lemma_)
  else
    .ok (flag, edit)

/-- One token's contribution to `clean_text` (app.py lines 89-111):
`some edit` when line 110's `edit != "" and flag == True` test passes,
`none` when the token is dropped. -/
def processToken (opts : Options) (w2n : Str → Option Int) (token : Token) :
    Except PipeErr (Option PyVal) :=
  (tokenDecision opts w2n token).map
    (fun p => if pyNeEmpty p.2 && p.1 then some p.2 else none)

/-- The filter loop of app.py lines 88-111: builds `clean_text` in token
order, aborting at the first token whose conversion raises. -/
def filterTokens (opts : Options) (w2n : Str → Option Int) :
    List Token → Except PipeErr (List PyVal)
  | [] => .ok []
  | t :: ts => do
      let r ← processToken opts w2n t
      let rest ← filterTokens opts w2n ts
      match r with
      | some v => .ok (v :: rest)
      | none => .ok rest

/-- Extract the strings of `clean_text`, failing with the TypeError that
Python's `' '.join` raises on the first non-string element. -/
def strVals : List PyVal → Except PipeErr (List Str)
  | [] => .ok []
  | .str s :: vs => (strVals vs).map (fun ss => s :: ss)
  | .num _ :: _ => .error .typeError

/-- Python `' '.join(clean_text)` at app.py line 113. -/
def pyJoin (vs : List PyVal) : Except PipeErr Str :=
  (strVals vs).map (List.intercalate (chars " "))

/-- The five conditional cleaning stages of app.py lines 73-82, in source
order: html stripping, whitespace normalization, accent folding,
contraction expansion, lowercasing. -/
def cleanStages (ext : Externals) (opts : Options) (text : Str) : Str :=
  let text := if opts.remove_html then ext.strip_html_tags text else text
  let text := if opts.extra_whitespace then remove_whitespace text else text
  let text := if opts.accented_chars then ext.unidecode text else text
  let text := if opts.contractions then ext.contractions_fix text else text
  let text := if opts.lowercase then pyLower text else text
  text

/-- `text_preprocessing` of app.py lines 67-113: cleaning stages, spaCy
tokenization, the filter loop, and the final join. -/
def text_preprocessing (ext : Externals) (opts : Options) (text : Str) :
    Except PipeErr Str := do
  let cleaned := cleanStages ext opts text
  let doc := ext.nlp cleaned
  let vals ← filterTokens opts ext.word_to_num doc
  pyJoin vals

/-- `l₂` contains `l₁` as a contiguous substring (Python's `in` on strings,
and pandas `Series.str.contains` for a pattern free of regex
metacharacters). -/
def strContains (pattern : Str) : Str → Bool
  | [] => pattern.isEmpty
  | c :: rest => pattern.isPrefixOf (c :: rest) || strContains pattern rest

/-- The row-matching predicate of `display_table` (app.py lines 672-676):
the query is normalized with all-default options and a row is kept when
`' ' + search + ' '` occurs in the row's precomputed `Text_Proc1` text.
(`Series.str.contains` treats its pattern as a regex; for the patterns at
issue, which contain no metacharacters, that is substring containment.) -/
def display_table_match (ext : Externals) (search_str row_text : Str) :
    Except PipeErr Bool := do
  let search ← text_preprocessing ext defaultOpts search_str
  .ok (strContains (chars " " ++ search ++ chars " ") row_text)

/-- The disjunction of the four drop rules of app.py lines 92-102: after the
four `flag` updates of the loop body, `flag` is false exactly when one of
these conditions held. -/
def dropped (opts : Options) (t : Token) : Bool :=
  (opts.stop_words && t.is_stop && !(t.pos_ == chars "NUM")) ||
  (opts.punctuations && (t.pos_ == chars "PUNCT")) ||
  (opts.special_chars && (t.pos_ == chars "SYM")) ||
  (opts.remove_num && ((t.pos_ == chars "NUM") || pyIsNumeric t.text))

/-- Outcome of the spec's per-token rule dispatch: the token is dropped, or
survives carrying a (possibly rewritten) value. -/
inductive RuleOutcome where
  | drop
  | keep (v : PyVal)
deriving DecidableEq, Repr

/-- Modelled from the spec: the seven filter rules of section 4.3 as an
ordered first-match-wins dispatch.  Rules 1-4 drop the token, rule 5
rewrites it to its parsed numeric value (failing with a ConversionError
when it cannot be parsed), rule 6 rewrites it to its lemma, rule 7 keeps
the surface text unchanged. -/
def specTokenRule (opts : Options) (w2n : Str → Option Int) (t : Token) :
    Except PipeErr RuleOutcome :=
  if opts.stop_words && t.is_stop && !(t.pos_ == chars "NUM") then .ok .drop
  else if opts.punctuations && (t.pos_ == chars "PUNCT") then .ok .drop
  else if opts.special_chars && (t.pos_ == chars "SYM") then .ok .drop
  else if opts.remove_num && ((t.pos_ == chars "NUM") || pyIsNumeric t.text) then .ok .drop
  else if opts.convert_num && (t.pos_ == chars "NUM") then
    match w2n t.text with
    | some n => .ok (.keep (PyVal.num n))
    | none => .error (.conversionError t.text)
  else if opts.lemmatization && !(t.lemma_ == chars "-PRON-") then
    .ok (.keep (PyVal.str t.lemma_))
  else
    .ok (.keep (PyVal.str t.text))

/-- Apply `f` when its stage flag is enabled; a disabled stage is a no-op. -/
def applyIf (b : Bool) (f : Str → Str) (s : Str) : Str := if b then f s else s

/-- Rule 5 fires for this token and the conversion fails: `convert_num`
enabled, category NUMBER, token not dropped by rules 1-4, and
`w2n.word_to_num` cannot parse the text. -/
def convFails (opts : Options) (w2n : Str → Option Int) (t : Token) : Bool :=
  opts.convert_num && (t.pos_ == chars "NUM") && !dropped opts t &&
    (w2n t.text).isNone

/-- A token survives (with rewriting disabled) iff no drop rule fires and
its surface text is nonempty. -/
def keepTok (opts : Options) (t : Token) : Bool :=
  !dropped opts t && !t.text.isEmpty

/-- The apostrophe character. -/
def apo : Char := Char.ofNat 39

/-- Build a token from literals: surface text, pos tag, lemma, stopword flag. -/
def tok (t p l : String) (st : Bool) : Token :=
  ⟨chars t, chars p, chars l, st⟩

/-- The spec's running example input. -/
def rawC3 : Str := chars "Don" ++ apo :: chars "t use 5 computers!"

/-- The example input after contraction expansion. -/
def expandedC3 : Str := chars "Do not use 5 computers!"

/-- The example input after contraction expansion and lowercasing. -/
def loweredC3 : Str := chars "do not use 5 computers!"

/-- Modelled from the spec: concrete externals for the running example
"Don't use 5 computers!".  The input holds no markup and no accented
characters, so those stages act as the identity; the contraction expander
rewrites the contraction to "Do not" (spec 4.1.4); the annotator tokenizes
the cleaned text in order, tags "5" as NUMBER and "!" as PUNCTUATION,
lemmatizes "computers" to "computer", and flags "do" — but not "not",
which is on the never-stopword override list — as a stopword (spec 4.2). -/
def ext3 : Externals where
  strip_html_tags := id
  unidecode := id
  contractions_fix := fun s => if s = rawC3 then expandedC3 else s
  nlp := fun s =>
    if s = loweredC3 then
      [tok "do" "AUX" "do" true, tok "not" "PART" "not" false,
       tok "use" "VERB" "use" false, tok "5" "NUM" "5" false,
       tok "computers" "NOUN" "computer" false, tok "!" "PUNCT" "!" false]
    else []
  word_to_num := fun s => if s = chars "5" then some 5 else none

/-- Modelled from the spec: externals whose annotator knows the single
plain noun "computer" (its own lemma, not a stopword). -/
def extC : Externals where
  strip_html_tags := id
  unidecode := id
  contractions_fix := id
  nlp := fun s =>
    if s = chars "computer" then [tok "computer" "NOUN" "computer" false] else []
  word_to_num := fun _ => none

/-- Modelled from the spec: externals whose annotator yields a NUMBER token
"five" that the numeral parser does parse. -/
def ext9 : Externals where
  strip_html_tags := id
  unidecode := id
  contractions_fix := id
  nlp := fun s => if s = chars "five" then [tok "five" "NUM" "five" false] else []
  word_to_num := fun s => if s = chars "five" then some 5 else none

/-- Options with numeral removal disabled (all else default). -/
def opts9 : Options := { remove_num := false }

/-- Modelled from the spec: externals whose annotator yields a NUMBER token
that the numeral parser cannot parse. -/
def ext5 : Externals where
  strip_html_tags := id
  unidecode := id
  contractions_fix := id
  nlp := fun s =>
    if s = chars "gazillion" then [tok "gazillion" "NUM" "gazillion" false] else []
  word_to_num := fun _ => none

/-- Modelled from the spec: externals whose annotator maps the normalized
text "hello world" to its two plain tokens. -/
def ext7 : Externals where
  strip_html_tags := id
  unidecode := id
  contractions_fix := id
  nlp := fun s =>
    if s = chars "hello world" then
      [tok "hello" "NOUN" "hello" false, tok "world" "NOUN" "world" false]
    else []
  word_to_num := fun _ => none

/-- Options with numeral conversion and lemmatization disabled. -/
def opts7 : Options := { convert_num := false, lemmatization := false }

/-- Trivial externals: identity cleaning stages and an annotator with no
tokens. -/
def ext6 : Externals where
  strip_html_tags := id
  unidecode := id
  contractions_fix := id
  nlp := fun _ => []
  word_to_num := fun _ => none

/-- Externals identical to `ext6` except for the numeral parser. -/
def extB : Externals where
  strip_html_tags := id
  unidecode := id
  contractions_fix := id
  nlp := fun _ => []
  word_to_num := fun _ => some 0

/-- Normal form of the loop body: the sequential `flag` updates amount to
`flag = !dropped`, after which the conversion / lemmatization branch runs. -/
theorem tokenDecision_eq (opts : Options) (w2n : Str → Option Int) (t : Token) :
    tokenDecision opts w2n t =
      if opts.convert_num && (t.pos_ == chars "NUM") && !dropped opts t then
        match w2n t.text with
        | some n => .ok (!dropped opts t, PyVal.num n)
        | none => .error (.conversionError t.text)
      else if opts.lemmatization && !(t.lemma_ == chars "-PRON-") && !dropped opts t then
        .ok (!dropped opts t, PyVal.str t.lemma_)
      else
        .ok (!dropped opts t, PyVal.str t.text) := by
  unfold tokenDecision dropped
  cases h1 : (opts.stop_words && t.is_stop && !(t.pos_ == chars "NUM")) <;>
    cases h2 : (opts.punctuations && (t.pos_ == chars "PUNCT")) <;>
      cases h3 : (opts.special_chars && (t.pos_ == chars "SYM")) <;>
        cases h4 : (opts.remove_num && ((t.pos_ == chars "NUM") || pyIsNumeric t.text)) <;>
          simp [h1, h2, h3, h4]

/-- Claim C1: for every annotated token and every options record, the loop
body of `text_preprocessing` implements the seven rules of spec section 4.3
in exactly that precedence with first-match-wins: a token whose final `flag`
is false is dropped by the first matching drop rule (1-4), and a surviving
token carries the value assigned by the first matching rewrite rule (5-7). -/
theorem tokenFilter_follows_spec_rule_order (opts : Options)
    (w2n : Str → Option Int) (t : Token) :
    Except.map (fun p : Bool × PyVal => cond p.1 (RuleOutcome.keep p.2) RuleOutcome.drop)
        (tokenDecision opts w2n t) =
      specTokenRule opts w2n t := by
  rw [tokenDecision_eq]
  unfold specTokenRule dropped
  cases h1 : (opts.stop_words && t.is_stop && !(t.pos_ == chars "NUM")) <;>
    cases h2 : (opts.punctuations && (t.pos_ == chars "PUNCT")) <;>
      cases h3 : (opts.special_chars && (t.pos_ == chars "SYM")) <;>
        cases h4 : (opts.remove_num && ((t.pos_ == chars "NUM") || pyIsNumeric t.text)) <;>
          cases h5 : (opts.convert_num && (t.pos_ == chars "NUM")) <;>
            cases h6 : (opts.lemmatization && !(t.lemma_ == chars "-PRON-")) <;>
              simp [h1, h2, h3, h4, h5, h6, Except.map] <;>
                cases w2n t.text <;> simp [Except.map]

/-- Claim C4: the cleaning stages run in the fixed order markup stripping,
whitespace normalization, diacritic folding, contraction expansion, case
folding; each runs exactly when its own option is enabled, a disabled stage
is a no-op, and (second through sixth conjuncts) disabling any single stage
leaves the remaining stages present in the same order. -/
theorem cleanStages_fixed_order (ext : Externals) (opts : Options) (text : Str) :
    (cleanStages ext opts text =
      applyIf opts.lowercase pyLower
        (applyIf opts.contractions ext.contractions_fix
          (applyIf opts.accented_chars ext.unidecode
            (applyIf opts.extra_whitespace remove_whitespace
              (applyIf opts.remove_html ext.strip_html_tags text))))) ∧
    (cleanStages ext { opts with remove_html := false } text =
      applyIf opts.lowercase pyLower
        (applyIf opts.contractions ext.contractions_fix
          (applyIf opts.accented_chars ext.unidecode
            (applyIf opts.extra_whitespace remove_whitespace text)))) ∧
    (cleanStages ext { opts with extra_whitespace := false } text =
      applyIf opts.lowercase pyLower
        (applyIf opts.contractions ext.contractions_fix
          (applyIf opts.accented_chars ext.unidecode
            (applyIf opts.remove_html ext.strip_html_tags text)))) ∧
    (cleanStages ext { opts with accented_chars := false } text =
      applyIf opts.lowercase pyLower
        (applyIf opts.contractions ext.contractions_fix
          (applyIf opts.extra_whitespace remove_whitespace
            (applyIf opts.remove_html ext.strip_html_tags text)))) ∧
    (cleanStages ext { opts with contractions := false } text =
      applyIf opts.lowercase pyLower
        (applyIf opts.accented_chars ext.unidecode
          (applyIf opts.extra_whitespace remove_whitespace
            (applyIf opts.remove_html ext.strip_html_tags text)))) ∧
    (cleanStages ext { opts with lowercase := false } text =
      applyIf opts.contractions ext.contractions_fix
        (applyIf opts.accented_chars ext.unidecode
          (applyIf opts.extra_whitespace remove_whitespace
            (applyIf opts.remove_html ext.strip_html_tags text)))) :=
  ⟨rfl, rfl, rfl, rfl, rfl, rfl⟩

/-- A surviving token's value is never the empty string: the append test of
app.py line 110 requires `edit != ""`. -/
theorem processToken_ok_some_ne_empty (opts : Options) (w2n : Str → Option Int)
    (t : Token) (v : PyVal) (h : processToken opts w2n t = .ok (some v)) :
    pyNeEmpty v = true := by
  unfold processToken at h
  rcases hd : tokenDecision opts w2n t with e | p
  · rw [hd] at h; simp [Except.map] at h
  · rw [hd] at h
    simp only [Except.map, Except.ok.injEq] at h
    by_cases hc : (pyNeEmpty p.2 && p.1) = true
    · rw [if_pos hc] at h
      cases h
      exact (Bool.and_elim_left hc)
    · rw [if_neg hc] at h; cases h

/-- The loop never reorders, duplicates or drops contributions: when no
token raises, `clean_text` is exactly the `filterMap` of the per-token
contribution over the document, in document order. -/
theorem filterTokens_ok_eq_filterMap (opts : Options) (w2n : Str → Option Int)
    (ts : List Token) (vs : List PyVal)
    (h : filterTokens opts w2n ts = .ok vs) :
    vs = ts.filterMap (fun t => ((processToken opts w2n t).toOption).join) := by
  induction ts generalizing vs with
  | nil => simp [filterTokens] at h; simp [h]
  | cons t ts ih =>
    unfold filterTokens at h
    rcases hp : processToken opts w2n t with e | o
    · rw [hp] at h; simp [Bind.bind, Except.bind] at h
    · rw [hp] at h
      simp only [Bind.bind, Except.bind] at h
      rcases hr : filterTokens opts w2n ts with e | rest
      · rw [hr] at h; cases o <;> simp at h
      · rw [hr] at h
        cases o with
        | none =>
          simp only [Except.ok.injEq] at h
          subst h
          rw [List.filterMap_cons]
          have hft : ((processToken opts w2n t).toOption).join = none := by rw [hp]; rfl
          rw [hft]
          exact ih rest hr
        | some v =>
          simp only [Except.ok.injEq] at h
          subst h
          rw [List.filterMap_cons]
          have hft : ((processToken opts w2n t).toOption).join = some v := by rw [hp]; rfl
          rw [hft, ← ih rest hr]

/-- `' '.join` succeeds exactly on lists of strings, and then returns them
unchanged: the string list behind a successful `strVals`. -/
theorem strVals_ok_eq_map (vs : List PyVal) (ss : List Str)
    (h : strVals vs = .ok ss) : vs = ss.map PyVal.str := by
  induction vs generalizing ss with
  | nil =>
    unfold strVals at h
    injection h with h
    subst h
    rfl
  | cons v vs ih =>
    cases v with
    | str s =>
      unfold strVals at h
      rcases hr : strVals vs with e | ss'
      · rw [hr] at h; simp [Except.map] at h
      · rw [hr] at h
        simp only [Except.map, Except.ok.injEq] at h
        subst h
        simp [← ih ss' hr]
    | num n =>
      unfold strVals at h
      simp at h

/-- A failing `strVals` always fails with the join TypeError. -/
theorem strVals_error_eq (vs : List PyVal) (e : PipeErr)
    (h : strVals vs = .error e) : e = .typeError := by
  induction vs with
  | nil => simp [strVals] at h
  | cons v vs ih =>
    cases v with
    | str s =>
      unfold strVals at h
      rcases hr : strVals vs with e' | ss'
      · rw [hr] at h
        simp only [Except.map, Except.error.injEq] at h
        subst h
        exact ih hr
      · rw [hr] at h; simp [Except.map] at h
    | num n =>
      unfold strVals at h
      simp only [Except.error.injEq] at h
      exact h.symm

/-- Joining an all-strings list succeeds with the space-separated join. -/
theorem pyJoin_map_str (ss : List Str) :
    pyJoin (ss.map PyVal.str) = .ok (List.intercalate (chars " ") ss) := by
  have h : strVals (ss.map PyVal.str) = .ok ss := by
    induction ss with
    | nil => rfl
    | cons s ss ih => simp [strVals, ih, Except.map]
  simp [pyJoin, h, Except.map]

/-- A per-token contribution of `some v` comes from a successful loop body. -/
theorem contribution_some (opts : Options) (w2n : Str → Option Int) (t : Token)
    (v : PyVal) (h : ((processToken opts w2n t).toOption).join = some v) :
    processToken opts w2n t = .ok (some v) := by
  rcases hp : processToken opts w2n t with e | o
  · rw [hp] at h; simp [Except.toOption, Option.join] at h
  · rw [hp] at h
    simp only [Except.toOption, Option.join] at h
    cases o with
    | none => simp at h
    | some v' => simp at h; rw [h]

/-- Claim C8: a successful run's output is exactly the surviving tokens'
values, joined with single spaces, in document order: the `clean_text` list
is the order-preserving `filterMap` of the per-token contribution (so no
surviving token is reordered, duplicated or omitted), and every surviving
string is nonempty (a token rewritten to the empty string is dropped even
when no drop rule matched it). -/
theorem output_is_ordered_join (ext : Externals) (opts : Options)
    (text res : Str) (h : text_preprocessing ext opts text = .ok res) :
    ∃ strs : List Str,
      filterTokens opts ext.word_to_num (ext.nlp (cleanStages ext opts text)) =
        .ok (strs.map PyVal.str) ∧
      res = List.intercalate (chars " ") strs ∧
      strs.map PyVal.str =
        (ext.nlp (cleanStages ext opts text)).filterMap
          (fun t => ((processToken opts ext.word_to_num t).toOption).join) ∧
      ∀ s ∈ strs, s.isEmpty = false := by
  unfold text_preprocessing at h
  dsimp only [] at h
  rcases hf : filterTokens opts ext.word_to_num (ext.nlp (cleanStages ext opts text))
    with e | vals
  · rw [hf] at h; simp [Bind.bind, Except.bind] at h
  · rw [hf] at h
    simp only [Bind.bind, Except.bind] at h
    unfold pyJoin at h
    rcases hs : strVals vals with e | ss
    · rw [hs] at h; simp [Except.map] at h
    · rw [hs] at h
      simp only [Except.map, Except.ok.injEq] at h
      have hmap := strVals_ok_eq_map vals ss hs
      subst hmap
      refine ⟨ss, rfl, h.symm, ?_, ?_⟩
      · exact filterTokens_ok_eq_filterMap opts ext.word_to_num _ _ hf
      · intro s hmem
        have hval : PyVal.str s ∈ ss.map PyVal.str := List.mem_map_of_mem _ hmem
        rw [filterTokens_ok_eq_filterMap opts ext.word_to_num _ _ hf] at hval
        rcases List.mem_filterMap.mp hval with ⟨t, _, hc⟩
        have := processToken_ok_some_ne_empty opts ext.word_to_num t (PyVal.str s)
          (contribution_some opts ext.word_to_num t (PyVal.str s) hc)
        simpa [pyNeEmpty] using this

/-- A token on which rule 5 fires and fails makes the loop body raise the
ConversionError naming that token's text. -/
theorem processToken_conv_error (opts : Options) (w2n : Str → Option Int)
    (t : Token) (h : convFails opts w2n t = true) :
    processToken opts w2n t = .error (.conversionError t.text) := by
  unfold convFails at h
  have h1 : (opts.convert_num && (t.pos_ == chars "NUM") && !dropped opts t) = true :=
    Bool.and_elim_left h
  have h2 : (w2n t.text).isNone = true := Bool.and_elim_right h
  unfold processToken
  rw [tokenDecision_eq, if_pos h1, Option.isNone_iff_eq_none.mp h2]
  rfl

/-- A token on which rule 5 does not fail processes without an error. -/
theorem processToken_ok_of_not_fail (opts : Options) (w2n : Str → Option Int)
    (t : Token) (h : convFails opts w2n t = false) :
    ∃ o, processToken opts w2n t = .ok o := by
  unfold processToken
  rw [tokenDecision_eq]
  by_cases h5 : (opts.convert_num && (t.pos_ == chars "NUM") && !dropped opts t) = true
  · unfold convFails at h
    rw [h5, Bool.true_and] at h
    rcases hw : w2n t.text with _ | n
    · rw [hw] at h; simp at h
    · rw [if_pos h5]
      exact ⟨_, rfl⟩
  · rw [if_neg h5]
    by_cases h6 : (opts.lemmatization && !(t.lemma_ == chars "-PRON-") && !dropped opts t) = true
    · rw [if_pos h6]; exact ⟨_, rfl⟩
    · rw [if_neg h6]; exact ⟨_, rfl⟩

/-- The loop aborts at the first token whose conversion fails: if some token
of the document fails rule 5's conversion, `clean_text` is never produced
and the loop's result is a ConversionError naming a failing token. -/
theorem filterTokens_conv_error (opts : Options) (w2n : Str → Option Int)
    (ts : List Token) (hex : ∃ t ∈ ts, convFails opts w2n t = true) :
    ∃ t ∈ ts, convFails opts w2n t = true ∧
      filterTokens opts w2n ts = .error (.conversionError t.text) := by
  induction ts with
  | nil => rcases hex with ⟨t, ht, _⟩; cases ht
  | cons t ts ih =>
    by_cases hc : convFails opts w2n t = true
    · refine ⟨t, List.mem_cons_self t ts, hc, ?_⟩
      unfold filterTokens
      rw [processToken_conv_error opts w2n t hc]
      rfl
    · have hc' : convFails opts w2n t = false := by
        cases hcv : convFails opts w2n t
        · rfl
        · exact absurd hcv hc
      have hex' : ∃ t' ∈ ts, convFails opts w2n t' = true := by
        rcases hex with ⟨t', ht', hf⟩
        rcases List.mem_cons.mp ht' with h | h
        · subst h; exact absurd hf hc
        · exact ⟨t', h, hf⟩
      rcases ih hex' with ⟨t', ht', hf', herr⟩
      refine ⟨t', List.mem_cons_of_mem t ht', hf', ?_⟩
      rcases processToken_ok_of_not_fail opts w2n t hc' with ⟨o, ho⟩
      unfold filterTokens
      rw [ho, herr]
      cases o <;> rfl

/-- Claim C5: if rule 5 fires for some document token (conversion enabled,
category NUMBER, not already dropped) and its text cannot be parsed as a
numeral, the whole invocation aborts with a ConversionError naming an
offending token (the first one), so the unconverted token is never passed
into an output string. -/
theorem conversion_failure_aborts (ext : Externals) (opts : Options)
    (text : Str) (t : Token)
    (hmem : t ∈ ext.nlp (cleanStages ext opts text))
    (hconv : opts.convert_num = true) (hpos : t.pos_ = chars "NUM")
    (hnd : dropped opts t = false) (hw : ext.word_to_num t.text = none) :
    ∃ t', t' ∈ ext.nlp (cleanStages ext opts text) ∧
      t'.pos_ = chars "NUM" ∧ dropped opts t' = false ∧
      ext.word_to_num t'.text = none ∧
      text_preprocessing ext opts text = .error (.conversionError t'.text) := by
  have hcf : convFails opts ext.word_to_num t = true := by
    unfold convFails
    rw [hconv, hpos, hnd, hw]
    rfl
  rcases filterTokens_conv_error opts ext.word_to_num _ ⟨t, hmem, hcf⟩
    with ⟨t', hmem', hcf', herr⟩
  unfold convFails at hcf'
  have h1 := Bool.and_elim_left hcf'
  have hd := Bool.and_elim_right hcf'
  refine ⟨t', hmem', ?_, ?_, ?_, ?_⟩
  · exact eq_of_beq (Bool.and_elim_right (Bool.and_elim_left h1))
  · have := Bool.and_elim_right h1
    cases hdr : dropped opts t'
    · rfl
    · rw [hdr] at this; exact absurd this (by simp)
  · exact Option.isNone_iff_eq_none.mp hd
  · unfold text_preprocessing
    dsimp only []
    rw [herr]
    rfl

/-- Under default options the conversion branch is unreachable: a NUMBER
token has already been dropped by the enabled rule 4. -/
theorem default_no_convert_cond (t : Token) :
    (defaultOpts.convert_num && (t.pos_ == chars "NUM") && !dropped defaultOpts t) = false := by
  by_cases hp : (t.pos_ == chars "NUM") = true
  · have hd : dropped defaultOpts t = true := by
      unfold dropped
      rw [hp]
      simp [defaultOpts]
    rw [hd]
    simp
  · rw [Bool.not_eq_true] at hp
    rw [hp]
    simp

/-- The loop body under default options never consults `word_to_num`. -/
theorem tokenDecision_default_indep (w w' : Str → Option Int) (t : Token) :
    tokenDecision defaultOpts w t = tokenDecision defaultOpts w' t := by
  rw [tokenDecision_eq, tokenDecision_eq]
  simp [default_no_convert_cond t]

/-- The per-token contribution under default options never consults
`word_to_num`. -/
theorem processToken_default_indep (w w' : Str → Option Int) (t : Token) :
    processToken defaultOpts w t = processToken defaultOpts w' t := by
  unfold processToken
  rw [tokenDecision_default_indep w w' t]

/-- The whole loop under default options never consults `word_to_num`. -/
theorem filterTokens_default_indep (w w' : Str → Option Int) (ts : List Token) :
    filterTokens defaultOpts w ts = filterTokens defaultOpts w' ts := by
  induction ts with
  | nil => rfl
  | cons t ts ih =>
    unfold filterTokens
    rw [ih, processToken_default_indep w w' t]

/-- Under default options the loop never raises: every token processes. -/
theorem filterTokens_default_ok (w : Str → Option Int) (ts : List Token) :
    ∃ vs, filterTokens defaultOpts w ts = .ok vs := by
  induction ts with
  | nil => exact ⟨[], rfl⟩
  | cons t ts ih =>
    rcases ih with ⟨vs, hvs⟩
    have hno : convFails defaultOpts w t = false := by
      unfold convFails
      rw [default_no_convert_cond t]
      rfl
    rcases processToken_ok_of_not_fail defaultOpts w t hno with ⟨o, ho⟩
    unfold filterTokens
    rw [ho, hvs]
    cases o with
    | none => exact ⟨vs, rfl⟩
    | some v => exact ⟨v :: vs, rfl⟩

/-- Claim C10: under default options rule 5 is unreachable.  For externals
that differ only in the numeral parser, `text_preprocessing` with default
options gives identical results (no conversion is ever attempted), and its
result is never a ConversionError: it is a success, or the TypeError of the
join step. -/
theorem default_opts_never_converts (ext ext' : Externals) (text : Str)
    (hs : ext.strip_html_tags = ext'.strip_html_tags)
    (hu : ext.unidecode = ext'.unidecode)
    (hc : ext.contractions_fix = ext'.contractions_fix)
    (hn : ext.nlp = ext'.nlp) :
    (text_preprocessing ext defaultOpts text =
      text_preprocessing ext' defaultOpts text) ∧
    ((∃ r, text_preprocessing ext defaultOpts text = .ok r) ∨
      text_preprocessing ext defaultOpts text = .error .typeError) := by
  obtain ⟨s, u, c, n, w⟩ := ext
  obtain ⟨s', u', c', n', w'⟩ := ext'
  dsimp only [] at hs hu hc hn
  subst hs hu hc hn
  constructor
  · unfold text_preprocessing
    dsimp only []
    exact congrArg (fun x => Except.bind x (fun vals => pyJoin vals))
      (filterTokens_default_indep w w'
        (n (cleanStages ⟨s, u, c, n, w⟩ defaultOpts text)))
  · rcases filterTokens_default_ok w
      (n (cleanStages (Externals.mk s u c n w) defaultOpts text)) with ⟨vs, hvs⟩
    have hpre : text_preprocessing ⟨s, u, c, n, w⟩ defaultOpts text = pyJoin vs := by
      unfold text_preprocessing
      dsimp only []
      rw [hvs]
      rfl
    rcases hsv : strVals vs with e | ss
    · right
      rw [hpre]
      unfold pyJoin
      rw [hsv, strVals_error_eq vs e hsv]
      rfl
    · left
      refine ⟨List.intercalate (chars " ") ss, ?_⟩
      rw [hpre]
      unfold pyJoin
      rw [hsv]
      rfl

/-- With conversion and lemmatization disabled, the loop body never raises
and never rewrites: a token contributes its own surface text or nothing. -/
theorem processToken_no_rewrite (opts : Options) (w2n : Str → Option Int)
    (t : Token) (hc : opts.convert_num = false)
    (hl : opts.lemmatization = false) :
    processToken opts w2n t =
      .ok (if keepTok opts t then some (PyVal.str t.text) else none) := by
  unfold processToken
  rw [tokenDecision_eq]
  simp only [hc, hl, Bool.false_and, Bool.false_eq_true, if_false]
  unfold keepTok
  simp [Except.map, pyNeEmpty, Bool.and_comm]

/-- With conversion and lemmatization disabled, the loop keeps exactly the
surviving tokens' surface texts, in order. -/
theorem filterTokens_no_rewrite (opts : Options) (w2n : Str → Option Int)
    (ts : List Token) (hc : opts.convert_num = false)
    (hl : opts.lemmatization = false) :
    filterTokens opts w2n ts =
      .ok ((ts.filter (keepTok opts)).map (fun t => PyVal.str t.text)) := by
  induction ts with
  | nil => rfl
  | cons t ts ih =>
    unfold filterTokens
    rw [processToken_no_rewrite opts w2n t hc hl, ih]
    cases hk : keepTok opts t <;> simp [List.filter_cons, hk, Bind.bind, Except.bind]

/-- With conversion and lemmatization disabled, the pipeline always
succeeds, with the join of the surviving tokens' texts. -/
theorem text_preprocessing_no_rewrite (ext : Externals) (opts : Options)
    (s : Str) (hc : opts.convert_num = false) (hl : opts.lemmatization = false) :
    text_preprocessing ext opts s =
      .ok (List.intercalate (chars " ")
        (((ext.nlp (cleanStages ext opts s)).filter (keepTok opts)).map Token.text)) := by
  unfold text_preprocessing
  dsimp only []
  rw [filterTokens_no_rewrite opts ext.word_to_num _ hc hl]
  show pyJoin _ = _
  have hcomp : (fun t : Token => PyVal.str t.text) = PyVal.str ∘ Token.text := rfl
  rw [hcomp, ← List.map_map, pyJoin_map_str]

/-- Claim C7: with lemmatization and numeral conversion disabled the
pipeline is idempotent.  The stability hypotheses say what the spec's
parenthetical assumes of the external stages on already-normalized text:
the cleaning stages leave the first pass's output unchanged and the
annotator re-tokenizes it into exactly the tokens that survived the first
pass. -/
theorem normalize_idempotent (ext : Externals) (opts : Options) (s r : Str)
    (hc : opts.convert_num = false) (hl : opts.lemmatization = false)
    (hr : text_preprocessing ext opts s = .ok r)
    (hclean : cleanStages ext opts r = r)
    (hnlp : ext.nlp r = (ext.nlp (cleanStages ext opts s)).filter (keepTok opts)) :
    text_preprocessing ext opts r = .ok r := by
  rw [text_preprocessing_no_rewrite ext opts s hc hl] at hr
  rw [text_preprocessing_no_rewrite ext opts r hc hl, hclean, hnlp]
  rw [List.filter_filter]
  simp only [Bool.and_self]
  injection hr with hr
  rw [hr]

/-- ASCII lowering maps whitespace to whitespace. -/
theorem toLower_ws (c : Char) (h : pyIsSpace c = true) :
    pyIsSpace (Char.toLower c) = true := by
  unfold pyIsSpace at h ⊢
  simp [Char.isWhitespace] at h
  rcases h with ((h | h) | h) | h <;> subst h <;> decide

/-- `str.lower` maps whitespace-only text to whitespace-only text. -/
theorem pyLower_all_ws (s : Str) (h : s.all pyIsSpace = true) :
    (pyLower s).all pyIsSpace = true := by
  rw [List.all_eq_true] at h
  rw [pyLower, List.all_eq_true]
  intro c hc
  rcases List.mem_map.mp hc with ⟨c', hc', rfl⟩
  exact toLower_ws c' (h c' hc')

/-- Stripping a whitespace-only string leaves nothing. -/
theorem pyStrip_all_ws (s : Str) (h : s.all pyIsSpace = true) :
    pyStrip s = [] := by
  have h1 : s.dropWhile pyIsSpace = [] := by
    rw [List.dropWhile_eq_nil_iff]
    intro x hx
    exact List.all_eq_true.mp h x hx
  unfold pyStrip
  rw [h1]
  rfl

/-- Splitting a whitespace-only string yields no words. -/
theorem pySplit_all_ws (s : Str) (h : s.all pyIsSpace = true) :
    pySplit s = [] := by
  induction s with
  | nil => rfl
  | cons c cs ih =>
    rw [List.all_cons, Bool.and_eq_true] at h
    unfold pySplit at ih ⊢
    rw [List.foldr_cons]
    unfold splitWsAux
    rw [if_pos h.1, List.filter_cons]
    simp only [List.isEmpty_nil, Bool.not_true, Bool.false_eq_true, if_false]
    exact ih h.2

/-- `remove_whitespace` maps whitespace-only text to the empty string. -/
theorem remove_whitespace_all_ws (s : Str) (h : s.all pyIsSpace = true) :
    remove_whitespace s = [] := by
  unfold remove_whitespace
  rw [pyStrip_all_ws s h]
  rfl

/-- The let-chain of `cleanStages` is the composition of one `applyIf` per
stage, in the source's fixed order. -/
theorem cleanStages_eq (ext : Externals) (opts : Options) (text : Str) :
    cleanStages ext opts text =
      applyIf opts.lowercase pyLower
        (applyIf opts.contractions ext.contractions_fix
          (applyIf opts.accented_chars ext.unidecode
            (applyIf opts.extra_whitespace remove_whitespace
              (applyIf opts.remove_html ext.strip_html_tags text)))) := rfl

/-- An optional stage preserves whitespace-onlyness when its function does. -/
theorem applyIf_all_ws (b : Bool) (f : Str → Str)
    (hf : ∀ s, s.all pyIsSpace = true → (f s).all pyIsSpace = true)
    (s : Str) (hs : s.all pyIsSpace = true) :
    (applyIf b f s).all pyIsSpace = true := by
  cases b
  · simpa [applyIf] using hs
  · simpa [applyIf] using hf s hs

/-- Whitespace-only input stays whitespace-only through every enabled
cleaning stage, given that the external stages preserve it. -/
theorem cleanStages_all_ws (ext : Externals) (opts : Options) (text : Str)
    (hws : text.all pyIsSpace = true)
    (hhtml : ∀ s, s.all pyIsSpace = true → (ext.strip_html_tags s).all pyIsSpace = true)
    (huni : ∀ s, s.all pyIsSpace = true → (ext.unidecode s).all pyIsSpace = true)
    (hfix : ∀ s, s.all pyIsSpace = true → (ext.contractions_fix s).all pyIsSpace = true) :
    (cleanStages ext opts text).all pyIsSpace = true := by
  rw [cleanStages_eq]
  exact applyIf_all_ws _ _ pyLower_all_ws _
    (applyIf_all_ws _ _ hfix _
      (applyIf_all_ws _ _ huni _
        (applyIf_all_ws _ _ (fun s hs => by rw [remove_whitespace_all_ws s hs]; rfl) _
          (applyIf_all_ws _ _ hhtml _ hws))))

/-- Claim C6: for every options record, an input that is empty or consists
only of whitespace normalizes without an error to the empty string, given
the modelled external contract (the external cleaning stages preserve
whitespace-onlyness and the annotator produces no tokens for
whitespace-only text). -/
theorem empty_input_gives_empty_output (ext : Externals) (opts : Options)
    (text : Str) (hws : text.all pyIsSpace = true)
    (hhtml : ∀ s, s.all pyIsSpace = true → (ext.strip_html_tags s).all pyIsSpace = true)
    (huni : ∀ s, s.all pyIsSpace = true → (ext.unidecode s).all pyIsSpace = true)
    (hfix : ∀ s, s.all pyIsSpace = true → (ext.contractions_fix s).all pyIsSpace = true)
    (hnlp : ∀ s, s.all pyIsSpace = true → ext.nlp s = []) :
    text_preprocessing ext opts text = .ok (chars "") := by
  have hc : (cleanStages ext opts text).all pyIsSpace = true :=
    cleanStages_all_ws ext opts text hws hhtml huni hfix
  unfold text_preprocessing
  dsimp only []
  rw [hnlp _ hc]
  rfl

/-- The executable containment test agrees with contiguous-substring
containment. -/
theorem strContains_iff_substring (p l : Str) : strContains p l = true ↔ p <:+: l := by
  induction l with
  | nil =>
    unfold strContains
    rw [List.isEmpty_iff, List.infix_nil]
  | cons c cs ih =>
    unfold strContains
    rw [Bool.or_eq_true, List.isPrefixOf_iff_prefix, ih, ← List.infix_cons_iff]

/-- Counterexample to claim C2: with the query and the row text both
normalizing to "computer", the space-padded query IS a substring of the
space-padded row text, yet the search does not match the row — the code
tests the padded query against the row text itself, unpadded. -/
theorem search_padding_counterexample :
    (decide (display_table_match extC (chars "computer") (chars "computer") = .ok true ↔
      (chars " " ++ chars "computer" ++ chars " ") <:+:
        (chars " " ++ chars "computer" ++ chars " "))) = false := by decide

/-- Claim C2 (amended): the search matches a row iff the normalized query
surrounded by single spaces is a substring of the row's precomputed
normalized text itself (not padded); hence "computer" matches a row whose
normalized text contains " computer " with both surrounding spaces, but
matches neither a row whose text is exactly "computer" or starts/ends with
it, nor a row containing only "computers". -/
theorem search_matches_unpadded_row :
    (∀ (ext : Externals) (q s row : Str),
      text_preprocessing ext defaultOpts q = .ok s →
      (display_table_match ext q row = .ok true ↔
        (chars " " ++ s ++ chars " ") <:+: row)) ∧
    display_table_match extC (chars "computer") (chars "large computer system") = .ok true ∧
    display_table_match extC (chars "computer") (chars "large computers system") = .ok false ∧
    display_table_match extC (chars "computer") (chars "computer system") = .ok false := by
  refine ⟨?_, by decide, by decide, by decide⟩
  intro ext q s row h
  unfold display_table_match
  rw [h]
  show Except.ok (strContains (chars " " ++ s ++ chars " ") row) = .ok true ↔ _
  constructor
  · intro he
    injection he with he
    exact (strContains_iff_substring _ _).mp he
  · intro hi
    have hc : strContains (chars " " ++ s ++ chars " ") row = true :=
      (strContains_iff_substring _ _).mpr hi
    rw [hc]

/-- Witness for the amended claim C2 at a concrete instance. -/
theorem search_matches_unpadded_row_witness :
    display_table_match extC (chars "computer") (chars "a computer b") = .ok true ↔
      (chars " " ++ chars "computer" ++ chars " ") <:+: chars "a computer b" :=
  search_matches_unpadded_row.1 extC (chars "computer") (chars "computer")
    (chars "a computer b") (by decide)

/-- Counterexample to claim C3: on the spec's running example the pipeline
does not return "not use 5 computer". -/
theorem default_example_counterexample :
    (decide (text_preprocessing ext3 defaultOpts rawC3 =
      .ok (chars "not use 5 computer"))) = false := by decide

/-- Claim C3 (amended): with all-default options, "Don't use 5 computers!"
normalizes to "not use computer": the contraction expands, the text is
lowercased, "do" is dropped as a stopword while "not" survives through the
override list, "computers" lemmatizes to "computer", "!" is dropped as
punctuation — and "5", tagged NUMBER, is dropped by rule 4 because
`remove_num` defaults to enabled, so it does not survive. -/
theorem default_example_output :
    text_preprocessing ext3 defaultOpts rawC3 = .ok (chars "not use computer") := by
  decide

/-- Claim C9: with numeral removal disabled and conversion enabled, a
parsable NUMBER token makes the pipeline fail at the join step: the
conversion succeeds and stores the integer 5 in `clean_text`, and joining
then raises the TypeError — the pipeline is not total under these
options. -/
theorem convert_without_remove_hits_join_type_error :
    ext9.word_to_num (chars "five") = some 5 ∧
    filterTokens opts9 ext9.word_to_num
        (ext9.nlp (cleanStages ext9 opts9 (chars "five"))) = .ok [PyVal.num 5] ∧
    text_preprocessing ext9 opts9 (chars "five") = .error .typeError := by
  refine ⟨rfl, by decide, by decide⟩

/-- Witness for claim C5 at a concrete instance: the NUMBER token
"gazillion" cannot be parsed, and the pipeline aborts naming it. -/
theorem conversion_failure_aborts_witness :
    ∃ t', t' ∈ ext5.nlp (cleanStages ext5 opts9 (chars "gazillion")) ∧
      t'.pos_ = chars "NUM" ∧ dropped opts9 t' = false ∧
      ext5.word_to_num t'.text = none ∧
      text_preprocessing ext5 opts9 (chars "gazillion") =
        .error (.conversionError t'.text) :=
  conversion_failure_aborts ext5 opts9 (chars "gazillion")
    (tok "gazillion" "NUM" "gazillion" false)
    (by decide) (by decide) (by decide) (by decide) (by decide)

/-- Witness for claim C6 at a concrete instance. -/
theorem empty_input_gives_empty_output_witness :
    text_preprocessing ext6 defaultOpts (chars "  ") = .ok (chars "") :=
  empty_input_gives_empty_output ext6 defaultOpts (chars "  ") (by decide)
    (fun _ h => h) (fun _ h => h) (fun _ h => h) (fun _ _ => rfl)

/-- Witness for claim C7 at a concrete instance. -/
theorem normalize_idempotent_witness :
    text_preprocessing ext7 opts7 (chars "hello world") = .ok (chars "hello world") :=
  normalize_idempotent ext7 opts7 (chars "hello world") (chars "hello world")
    rfl rfl (by decide) (by decide) (by decide)

/-- Witness for claim C8 at a concrete instance. -/
theorem output_is_ordered_join_witness :
    ∃ strs : List Str,
      filterTokens defaultOpts extC.word_to_num
          (extC.nlp (cleanStages extC defaultOpts (chars "computer"))) =
        .ok (strs.map PyVal.str) ∧
      chars "computer" = List.intercalate (chars " ") strs ∧
      strs.map PyVal.str =
        (extC.nlp (cleanStages extC defaultOpts (chars "computer"))).filterMap
          (fun t => ((processToken defaultOpts extC.word_to_num t).toOption).join) ∧
      ∀ s ∈ strs, s.isEmpty = false :=
  output_is_ordered_join extC defaultOpts (chars "computer") (chars "computer") (by decide)

/-- Witness for claim C10 at a concrete instance. -/
theorem default_opts_never_converts_witness :
    (text_preprocessing ext6 defaultOpts (chars "one") =
      text_preprocessing extB defaultOpts (chars "one")) ∧
    ((∃ r, text_preprocessing ext6 defaultOpts (chars "one") = .ok r) ∨
      text_preprocessing ext6 defaultOpts (chars "one") = .error .typeError) :=
  default_opts_never_converts ext6 extB (chars "one") rfl rfl rfl rfl
